import Mathlib

/-!
Verification of the booking-transaction subsystem of the event-booking
REST backend: a shallow embedding of the refund policy engine
(`server/utils/helpers.js`), the Booking model hooks and indexes
(`server/models/Booking.js`), and the booking transaction coordinator
(`server/controllers/bookingController.js`), together with proofs about
the seat-ledger invariants, the active-booking uniqueness constraint,
the atomicity of the create/cancel transactions, and the refund policy.

Modelling conventions:
* JS numbers that hold money or timestamps become `Rat` (the code only
  adds, subtracts, multiplies and divides them); seat counters become
  `Int` (the `$inc` update can in principle drive them negative);
  identifiers become `Nat`.
* Timestamps are milliseconds since the epoch; `new Date()` becomes an
  explicit `now : Rat` argument.
* The MongoDB collections become association lists keyed by id.
  MongoDB `_id`s are unique, so `findById`/`findByIdAndUpdate` read and
  write the first (in a real store: the only) entry with the key.
* A mongoose transaction (`startSession`/`commitTransaction`/
  `abortTransaction`) becomes: the operation either returns the fully
  updated store, or an error together with the unchanged store.  An
  exogenous storage failure during the transactional write is modelled
  by a `fault : Bool` argument; a fault aborts the transaction.
-/

namespace EventBooking

/-- Booking status enum of `bookingSchema` (`server/models/Booking.js`). -/
inductive BookingStatus
  | confirmed
  | cancelled
  | pending
  | refunded
deriving DecidableEq, Repr

/-- Payment status enum of `bookingSchema` (`server/models/Booking.js`);
`partialStatus` stands for the source's "partial" enum value. -/
inductive PaymentStatus
  | paid
  | pending
  | failed
  | refunded
  | partialStatus
deriving DecidableEq, Repr

/-- Hours from `now` until `eventDate`, both in milliseconds:
`(eventDate - now) / (1000 * 60 * 60)` as computed throughout the source. -/
def hoursUntil (now eventDate : Rat) : Rat :=
  (eventDate - now) / (1000 * 60 * 60)

/-- `calculateRefund` from `server/utils/helpers.js`: maps the booking
amount, the event date and a policy tier to the refunded amount.  The JS
`switch` on the policy string becomes a chain of string comparisons with
the same `default: return 0` fall-through; the source's local
`hoursUntilEvent` binding is inlined as `hoursUntil now eventDate`. -/
def calculateRefund (totalAmount eventDate now : Rat) (policy : String) : Rat :=
  if policy = "flexible" then
    if hoursUntil now eventDate ≥ 24 then totalAmount
    else if hoursUntil now eventDate ≥ 2 then totalAmount * (1/2)
    else 0
  else if policy = "moderate" then
    if hoursUntil now eventDate ≥ 48 then totalAmount
    else if hoursUntil now eventDate ≥ 24 then totalAmount * (1/2)
    else 0
  else if policy = "strict" then
    if hoursUntil now eventDate ≥ 168 then totalAmount
    else if hoursUntil now eventDate ≥ 72 then totalAmount * (1/2)
    else 0
  else if policy = "no_refund" then 0
  else 0

/-- `bookingSchema.methods.calculateRefund` from `server/models/Booking.js`:
the Booking instance method.  The `!this.populated("event")` guard becomes
the `none` case of the optional event date. -/
def bookingCalculateRefund (totalAmount : Rat) (eventDate : Option Rat) (now : Rat) : Rat :=
  match eventDate with
  | none => 0
  | some d =>
    if hoursUntil now d ≥ 168 then totalAmount
    else if hoursUntil now d ≥ 72 then totalAmount * (3/4)
    else if hoursUntil now d ≥ 24 then totalAmount * (1/2)
    else 0

/-- The inventory-bearing Event entity (fields of the Event schema used by
the booking coordinator; see the data-model section of the README and the
controller's uses of `targetEvent`). -/
structure Event where
  totalSeats : Int
  availableSeats : Int
  price : Rat
  maxBookingsPerUser : Nat
  isActive : Bool
  date : Rat
deriving DecidableEq, Repr

/-- The Booking entity (`server/models/Booking.js`), restricted to the
fields the coordinator reads or writes.  `attendeeInfo` keeps only the
attendee names, whose count is what the schema validates. -/
structure Booking where
  user : Nat
  event : Nat
  numberOfTickets : Nat
  totalAmount : Rat
  bookingStatus : BookingStatus
  paymentStatus : PaymentStatus
  cancellationDate : Option Rat
  cancellationReason : Option String
  refundAmount : Option Rat
  attendeeInfo : List String
deriving DecidableEq, Repr

/-- The two MongoDB collections the coordinator touches, as association
lists keyed by id, plus the next fresh booking id. -/
structure DB where
  events : List (Nat × Event)
  bookings : List (Nat × Booking)
  nextBookingId : Nat
deriving DecidableEq, Repr

/-- `findById`: the first (in a real store with unique `_id`s: the only)
entry with the given key. -/
def lookupFirst {α : Type} : List (Nat × α) → Nat → Option α
  | [], _ => none
  | p :: rest, k => if p.1 = k then some p.2 else lookupFirst rest k

/-- `findByIdAndUpdate`: rewrite the first entry with the given key. -/
def updateFirst {α : Type} : List (Nat × α) → Nat → (α → α) → List (Nat × α)
  | [], _, _ => []
  | p :: rest, k, f => if p.1 = k then (k, f p.2) :: rest else p :: updateFirst rest k f

def DB.findEvent (db : DB) (eid : Nat) : Option Event :=
  lookupFirst db.events eid

def DB.findBooking (db : DB) (bid : Nat) : Option Booking :=
  lookupFirst db.bookings bid

def DB.updateEvent (db : DB) (eid : Nat) (f : Event → Event) : DB :=
  { db with events := updateFirst db.events eid f }

def DB.updateBooking (db : DB) (bid : Nat) (f : Booking → Booking) : DB :=
  { db with bookings := updateFirst db.bookings bid f }

/-- Active statuses, as in the duplicate query
`bookingStatus: { $in: ["confirmed", "pending"] }` and the partial filter
of the unique index. -/
def isActiveStatus (s : BookingStatus) : Bool :=
  s == BookingStatus.confirmed || s == BookingStatus.pending

/-- `Booking.findOne({user, event, bookingStatus: {$in: [confirmed, pending]}})`
is some booking. -/
def hasActiveBooking (db : DB) (u e : Nat) : Bool :=
  db.bookings.any fun p =>
    p.2.user == u && p.2.event == e && isActiveStatus p.2.bookingStatus

/-- The `bookingSchema.pre("save")` attendee hook accepts the document:
it errors only when `attendeeInfo.length > 0` and the length differs from
`numberOfTickets`. -/
def attendeeCountOk (b : Booking) : Bool :=
  b.attendeeInfo.length == 0 || b.attendeeInfo.length == b.numberOfTickets

/-- `new Booking(data); booking.save()`: run the schema pre-save hooks and
the storage-level unique index `{user: 1, event: 1}` with
`partialFilterExpression: bookingStatus ∈ {confirmed, pending}`
(`server/models/Booking.js`), then insert under a fresh id.  `none` is a
save error (surfaced by the controller as an aborted transaction). -/
def saveNewBooking (db : DB) (b : Booking) : Option DB :=
  if ¬ attendeeCountOk b then none
  else if isActiveStatus b.bookingStatus && hasActiveBooking db b.user b.event then none
  else some { db with
    bookings := db.bookings ++ [(db.nextBookingId, b)],
    nextBookingId := db.nextBookingId + 1 }

/-- Error taxonomy of the coordinator, one constructor per distinct failure
response of the controller; `serverError` is the generic 500 produced by the
`catch` block after an aborted transaction. -/
inductive BErr
  | eventUnavailable
  | duplicateActiveBooking
  | insufficientCapacity
  | bookingLimitExceeded
  | notFound
  | invalidStateTransition
  | accessDenied
  | cancellationWindowClosed
  | refundExceedsTotal
  | serverError
deriving DecidableEq, Repr

/-- HTTP status code the controller attaches to each failure. -/
def BErr.status : BErr → Nat
  | .eventUnavailable => 404
  | .notFound => 404
  | .duplicateActiveBooking => 409
  | .accessDenied => 403
  | .serverError => 500
  | _ => 400

/-- Request body of `POST /bookings` as the coordinator consumes it. -/
structure CreateArgs where
  userId : Nat
  eventId : Nat
  numberOfTickets : Nat
  attendeeInfo : Option (List String)
deriving DecidableEq, Repr

/-- The read/validation phase of `createBooking`
(`server/controllers/bookingController.js`): fetch the event (the source's
`findOne` query folds the `isActive`/future-date conditions into the fetch,
so an inactive or past event is a 404 exactly as a missing one), reject a
duplicate active booking, insufficient seats, or a per-user limit breach,
then assemble the booking document exactly as `bookingDetails` does
(`paymentStatus: "paid"`, `bookingStatus: "confirmed"`,
`attendeeInfo: attendeeInfo || []`). -/
def validateCreate (db : DB) (a : CreateArgs) (now : Rat) : Except BErr Booking :=
  match db.findEvent a.eventId with
  | none => .error .eventUnavailable
  | some ev =>
    if ¬ (ev.isActive = true ∧ now ≤ ev.date) then .error .eventUnavailable
    else if hasActiveBooking db a.userId a.eventId then .error .duplicateActiveBooking
    else if ev.availableSeats < (a.numberOfTickets : Int) then .error .insufficientCapacity
    else if a.numberOfTickets > ev.maxBookingsPerUser then .error .bookingLimitExceeded
    else .ok
      { user := a.userId
        event := a.eventId
        numberOfTickets := a.numberOfTickets
        totalAmount := ev.price * (a.numberOfTickets : Rat)
        bookingStatus := .confirmed
        paymentStatus := .paid
        cancellationDate := none
        cancellationReason := none
        refundAmount := none
        attendeeInfo := a.attendeeInfo.getD [] }

/-- The transactional write phase of `createBooking`: inside one mongoose
transaction, save the new booking and `$inc` the event's `availableSeats`
by `-numberOfTickets`.  A hook/index failure of the save, or an exogenous
storage fault, aborts the whole transaction (the caller keeps the old
store) and surfaces as the generic 500. -/
def commitCreate (db : DB) (a : CreateArgs) (b : Booking) (fault : Bool) :
    Except BErr (Nat × DB) :=
  if fault then .error .serverError
  else
    match saveNewBooking db b with
    | none => .error .serverError
    | some db1 =>
      .ok (db.nextBookingId,
        db1.updateEvent a.eventId fun ev =>
          { ev with availableSeats := ev.availableSeats - (a.numberOfTickets : Int) })

/-- `createBooking`: validation phase then transactional write phase; on
any failure the store is unchanged. -/
def createBooking (db : DB) (a : CreateArgs) (now : Rat) (fault : Bool) :
    Except BErr Nat × DB :=
  match validateCreate db a now with
  | .error e => (.error e, db)
  | .ok b =>
    match commitCreate db a b fault with
    | .error e => (.error e, db)
    | .ok (bid, db') => (.ok bid, db')

/-- The booking fields `cancelBooking`'s `findByIdAndUpdate` sets. -/
def cancelUpdate (now : Rat) (reason : Option String) (refundAmt : Rat)
    (bb : Booking) : Booking :=
  { bb with
    bookingStatus := .cancelled
    cancellationDate := some now
    cancellationReason := some (reason.getD "Cancelled by user")
    refundAmount := some refundAmt
    paymentStatus := if refundAmt > 0 then .refunded else .paid }

/-- `cancelBooking` (`server/controllers/bookingController.js`): fetch the
booking (404 if absent), require status `confirmed` (400), require the
actor to be the owner unless admin (403), require at least 24 hours before
the event unless admin (400), compute the "moderate" refund, then in one
transaction mark the booking cancelled and `$inc` the seats back.  The
populated event missing would make the JS throw, caught as the generic
500; a storage fault during the transaction likewise aborts it. -/
def cancelBooking (db : DB) (bookingId actorId : Nat) (actorRole : String)
    (reason : Option String) (now : Rat) (fault : Bool) : Except BErr Rat × DB :=
  match db.findBooking bookingId with
  | none => (.error .notFound, db)
  | some b =>
    if b.bookingStatus ≠ .confirmed then (.error .invalidStateTransition, db)
    else if actorRole ≠ "admin" ∧ b.user ≠ actorId then (.error .accessDenied, db)
    else
      match db.findEvent b.event with
      | none => (.error .serverError, db)
      | some ev =>
        if hoursUntil now ev.date < 24 ∧ actorRole ≠ "admin" then
          (.error .cancellationWindowClosed, db)
        else if fault then (.error .serverError, db)
        else
          let refundAmt := calculateRefund b.totalAmount ev.date now "moderate"
          let db1 := db.updateBooking bookingId (cancelUpdate now reason refundAmt)
          let db2 := db1.updateEvent b.event fun e =>
            { e with availableSeats := e.availableSeats + (b.numberOfTickets : Int) }
          (.ok refundAmt, db2)

/-- The booking fields `refundBooking`'s `findByIdAndUpdate` sets
(`cancellationReason: reason || booking.cancellationReason`). -/
def refundUpdate (refundAmt : Rat) (reason : Option String) (bb : Booking) : Booking :=
  { bb with
    refundAmount := some refundAmt
    paymentStatus := if refundAmt > 0 then .refunded else .paid
    bookingStatus := .refunded
    cancellationReason :=
      match reason with
      | some r => some r
      | none => bb.cancellationReason }

/-- `refundBooking` (`server/controllers/bookingController.js`, admin
route): fetch the booking (404 if absent), require status `cancelled`
(400), reject a refund above the booking total (400), then update the
booking in place.  No event/ledger interaction. -/
def refundBooking (db : DB) (bookingId : Nat) (refundAmt : Rat)
    (reason : Option String) : Except BErr Rat × DB :=
  match db.findBooking bookingId with
  | none => (.error .notFound, db)
  | some b =>
    if b.bookingStatus ≠ .cancelled then (.error .invalidStateTransition, db)
    else if refundAmt > b.totalAmount then (.error .refundExceedsTotal, db)
    else (.ok refundAmt, db.updateBooking bookingId (refundUpdate refundAmt reason))

/-- One coordinator request. -/
inductive Op
  | create (a : CreateArgs) (now : Rat) (fault : Bool)
  | cancel (bookingId actorId : Nat) (actorRole : String) (reason : Option String)
      (now : Rat) (fault : Bool)
  | refund (bookingId : Nat) (refundAmt : Rat) (reason : Option String)

/-- The store after serving one request. -/
def applyOp (db : DB) : Op → DB
  | .create a now fault => (createBooking db a now fault).2
  | .cancel bid aid role reason now fault =>
    (cancelBooking db bid aid role reason now fault).2
  | .refund bid amt reason => (refundBooking db bid amt reason).2

/-- The store after serving a sequence of requests. -/
def runOps (db : DB) (ops : List Op) : DB :=
  ops.foldl applyOp db

/-! The seat-ledger invariant (C2). -/

/-- Contribution of one stored booking to the confirmed-ticket count of
event `eid`. -/
def confirmedTicketWeight (eid : Nat) (p : Nat × Booking) : Nat :=
  if p.2.event = eid ∧ p.2.bookingStatus = BookingStatus.confirmed
  then p.2.numberOfTickets else 0

/-- Total tickets of confirmed bookings stored for event `eid`. -/
def confirmedTickets (db : DB) (eid : Nat) : Nat :=
  (db.bookings.map (confirmedTicketWeight eid)).sum

/-- Inductive ledger invariant: every observable event has a nonnegative
seat counter, and the counter plus all confirmed tickets stays within the
capacity. -/
def LedgerInv (db : DB) : Prop :=
  ∀ eid ev, db.findEvent eid = some ev →
    0 ≤ ev.availableSeats ∧
    ev.availableSeats + (confirmedTickets db eid : Int) ≤ ev.totalSeats

/-! The active-uniqueness invariant (C3). -/

/-- Two stored bookings may not both be active for the same user/event
pair. -/
def NotBothActive (p q : Nat × Booking) : Prop :=
  ¬ (p.2.user = q.2.user ∧ p.2.event = q.2.event ∧
     isActiveStatus p.2.bookingStatus = true ∧ isActiveStatus q.2.bookingStatus = true)

instance : DecidableRel NotBothActive := fun p q => by
  unfold NotBothActive; infer_instance

/-- At most one active booking per (user, event) pair in the store. -/
def ActiveUnique (db : DB) : Prop :=
  db.bookings.Pairwise NotBothActive

instance (db : DB) : Decidable (ActiveUnique db) := by
  unfold ActiveUnique; infer_instance

/-- One interleaved execution of two `createBooking` requests: both
handlers perform their validation reads against the same store state, then
their transactional writes run one after the other.  The controller
suspends at each `await`, so this V1-V2-W1-W2 schedule is one of its real
schedules: the capacity check of the second request reads the store before
the first request's transaction commits. -/
def interleavedPair (db : DB) (a1 a2 : CreateArgs) (now : Rat) :
    Except BErr Nat × Except BErr Nat × DB :=
  match validateCreate db a1 now, validateCreate db a2 now with
  | .ok b1, .ok b2 =>
    (match commitCreate db a1 b1 false with
     | .ok (bid1, db1) =>
       (match commitCreate db1 a2 b2 false with
        | .ok (bid2, db2) => (.ok bid1, .ok bid2, db2)
        | .error e2 => (.ok bid1, .error e2, db1))
     | .error e1 =>
       (match commitCreate db a2 b2 false with
        | .ok (bid2, db2) => (.error e1, .ok bid2, db2)
        | .error e2 => (.error e1, .error e2, db)))
  | .ok b1, .error e2 =>
    (match commitCreate db a1 b1 false with
     | .ok (bid1, db1) => (.ok bid1, .error e2, db1)
     | .error e1 => (.error e1, .error e2, db))
  | .error e1, .ok b2 =>
    (match commitCreate db a2 b2 false with
     | .ok (bid2, db2) => (.error e1, .ok bid2, db2)
     | .error e2 => (.error e1, .error e2, db))
  | .error e1, .error e2 => (.error e1, .error e2, db)

/-! Concrete fixtures used by the witnesses and counterexamples. -/

/-- An active future event with 10 of 10 seats free, priced 20, at most 5
tickets per user, scheduled 960 hours after the epoch. -/
def wEvent : Event :=
  { totalSeats := 10, availableSeats := 10, price := 20, maxBookingsPerUser := 5,
    isActive := true, date := 960 * (1000 * 60 * 60) }

/-- A store holding only `wEvent`, with no bookings yet. -/
def wDB : DB := { events := [(1, wEvent)], bookings := [], nextBookingId := 0 }

/-- Book 3 tickets at time 0, then cancel the created booking one hour
later. -/
def wOps : List Op :=
  [Op.create ⟨7, 1, 3, none⟩ 0 false,
   Op.cancel 0 7 "user" none (1000 * 60 * 60) false]

/-- A confirmed 3-ticket booking of user 7 on event 1. -/
def wBooking : Booking :=
  { user := 7, event := 1, numberOfTickets := 3, totalAmount := 60,
    bookingStatus := .confirmed, paymentStatus := .paid, cancellationDate := none,
    cancellationReason := none, refundAmount := none, attendeeInfo := [] }

/-- The store holding `wEvent` and the confirmed booking `wBooking`. -/
def w2DB : DB :=
  { events := [(1, wEvent)], bookings := [(0, wBooking)], nextBookingId := 1 }

/-- `wBooking` after a cancellation. -/
def wCancelledBooking : Booking := { wBooking with bookingStatus := .cancelled }

/-- The store holding `wEvent` and the cancelled booking. -/
def w3DB : DB :=
  { events := [(1, wEvent)], bookings := [(0, wCancelledBooking)], nextBookingId := 1 }

/-- The booking document `validateCreate` assembles for a 3-ticket request
with a two-name attendee list. -/
def wMismatchBooking : Booking :=
  { user := 7, event := 1, numberOfTickets := 3, totalAmount := 60,
    bookingStatus := .confirmed, paymentStatus := .paid, cancellationDate := none,
    cancellationReason := none, refundAmount := none, attendeeInfo := ["Ada", "Bob"] }

/-- An event with a single remaining seat. -/
def c9Event : Event :=
  { totalSeats := 1, availableSeats := 1, price := 20, maxBookingsPerUser := 5,
    isActive := true, date := 960 * (1000 * 60 * 60) }

/-- A store holding only `c9Event`, with no bookings. -/
def c9DB : DB := { events := [(1, c9Event)], bookings := [], nextBookingId := 0 }

/-- The booking document of user 7's single-ticket request on the last
seat. -/
def c9b1 : Booking :=
  { user := 7, event := 1, numberOfTickets := 1, totalAmount := 20,
    bookingStatus := .confirmed, paymentStatus := .paid, cancellationDate := none,
    cancellationReason := none, refundAmount := none, attendeeInfo := [] }

/-- The same single-ticket request issued by user 8. -/
def c9b2 : Booking := { c9b1 with user := 8 }

/-! Store lemmas: how `lookupFirst`/`updateFirst` interact. -/

theorem lookupFirst_mem {α : Type} {l : List (Nat × α)} {k : Nat} {v : α}
    (h : lookupFirst l k = some v) : (k, v) ∈ l := by
  induction l with
  | nil => simp [lookupFirst] at h
  | cons p rest ih =>
    rw [lookupFirst] at h
    split at h
    · next hk =>
      cases h
      exact List.mem_cons.2 (Or.inl (by rw [← hk]))
    · exact List.mem_cons.2 (Or.inr (ih h))

theorem lookupFirst_updateFirst_self {α : Type} {l : List (Nat × α)} {k : Nat} {v : α}
    (f : α → α) (h : lookupFirst l k = some v) :
    lookupFirst (updateFirst l k f) k = some (f v) := by
  induction l with
  | nil => simp [lookupFirst] at h
  | cons p rest ih =>
    rw [lookupFirst] at h
    rw [updateFirst]
    split at h
    · next hk => cases h; simp [hk, lookupFirst]
    · next hk => simp only [if_neg hk, lookupFirst, if_neg hk]; exact ih h

theorem lookupFirst_updateFirst_ne {α : Type} {l : List (Nat × α)} {k k' : Nat}
    (f : α → α) (hne : k' ≠ k) :
    lookupFirst (updateFirst l k f) k' = lookupFirst l k' := by
  induction l with
  | nil => simp [updateFirst]
  | cons p rest ih =>
    rw [updateFirst]
    split
    · next hk =>
      subst hk
      have hpk : p.1 ≠ k' := fun h => hne h.symm
      simp [lookupFirst, hpk]
    · next hk => rw [lookupFirst, lookupFirst, ih]

theorem mem_updateFirst {α : Type} {l : List (Nat × α)} {k : Nat} {f : α → α}
    {q : Nat × α} (hq : q ∈ updateFirst l k f) :
    q ∈ l ∨ ∃ v, lookupFirst l k = some v ∧ q = (k, f v) := by
  induction l with
  | nil => simp [updateFirst] at hq
  | cons p rest ih =>
    rw [updateFirst] at hq
    split at hq
    · next hk =>
      rcases List.mem_cons.1 hq with hq | hq
      · exact Or.inr ⟨p.2, by simp [lookupFirst, hk], hq⟩
      · exact Or.inl (List.mem_cons.2 (Or.inr hq))
    · next hk =>
      rcases List.mem_cons.1 hq with hq | hq
      · exact Or.inl (List.mem_cons.2 (Or.inl hq))
      · rcases ih hq with hq | ⟨v, hv, hqv⟩
        · exact Or.inl (List.mem_cons.2 (Or.inr hq))
        · exact Or.inr ⟨v, by simp [lookupFirst, hk, hv], hqv⟩

theorem sum_map_updateFirst {α : Type} {l : List (Nat × α)} {k : Nat} {v : α}
    (g : Nat × α → Nat) (f : α → α) (h : lookupFirst l k = some v) :
    ((updateFirst l k f).map g).sum + g (k, v) = (l.map g).sum + g (k, f v) := by
  induction l with
  | nil => simp [lookupFirst] at h
  | cons p rest ih =>
    rw [lookupFirst] at h
    rw [updateFirst]
    split at h
    · next hk =>
      cases h
      subst hk
      simp [List.map_cons, List.sum_cons]
      ring
    · next hk =>
      rw [if_neg hk]
      simp only [List.map_cons, List.sum_cons]
      have := ih h
      omega

/-! Inversion lemmas: each coordinator operation either fails and leaves
the store untouched, or succeeds with a fully described store update. -/

theorem validateCreate_ok {db : DB} {a : CreateArgs} {now : Rat} {b : Booking}
    (h : validateCreate db a now = .ok b) :
    ∃ ev, db.findEvent a.eventId = some ev ∧
      ev.isActive = true ∧ now ≤ ev.date ∧
      hasActiveBooking db a.userId a.eventId = false ∧
      (a.numberOfTickets : Int) ≤ ev.availableSeats ∧
      a.numberOfTickets ≤ ev.maxBookingsPerUser ∧
      b = { user := a.userId
            event := a.eventId
            numberOfTickets := a.numberOfTickets
            totalAmount := ev.price * (a.numberOfTickets : Rat)
            bookingStatus := .confirmed
            paymentStatus := .paid
            cancellationDate := none
            cancellationReason := none
            refundAmount := none
            attendeeInfo := a.attendeeInfo.getD [] } := by
  unfold validateCreate at h
  rcases he : db.findEvent a.eventId with _ | ev
  · rw [he] at h
    exact absurd h (by simp)
  · rw [he] at h
    simp only [] at h
    split_ifs at h with h1 h2 h3 h4
    simp only [Bool.not_eq_true] at h2
    injection h with h
    exact ⟨ev, rfl, h1.1, h1.2, h2, not_lt.1 h3, not_lt.1 h4, h.symm⟩

theorem saveNewBooking_some {db : DB} {b : Booking} {db1 : DB}
    (h : saveNewBooking db b = some db1) :
    attendeeCountOk b = true ∧
    (isActiveStatus b.bookingStatus && hasActiveBooking db b.user b.event) = false ∧
    db1 = { db with
            bookings := db.bookings ++ [(db.nextBookingId, b)],
            nextBookingId := db.nextBookingId + 1 } := by
  unfold saveNewBooking at h
  split_ifs at h with h1 h2
  simp only [Bool.not_eq_true] at h2
  injection h with h
  exact ⟨h1, h2, h.symm⟩

theorem createBooking_cases (db : DB) (a : CreateArgs) (now : Rat) (fault : Bool) :
    ((∃ e, (createBooking db a now fault).1 = .error e) ∧
      (createBooking db a now fault).2 = db) ∨
    (∃ ev b, db.findEvent a.eventId = some ev ∧
      validateCreate db a now = .ok b ∧
      b.user = a.userId ∧ b.event = a.eventId ∧
      b.numberOfTickets = a.numberOfTickets ∧
      b.bookingStatus = .confirmed ∧
      (a.numberOfTickets : Int) ≤ ev.availableSeats ∧
      hasActiveBooking db a.userId a.eventId = false ∧
      (createBooking db a now fault).1 = .ok db.nextBookingId ∧
      (createBooking db a now fault).2 =
        { events := updateFirst db.events a.eventId
            (fun e => { e with availableSeats := e.availableSeats - (a.numberOfTickets : Int) }),
          bookings := db.bookings ++ [(db.nextBookingId, b)],
          nextBookingId := db.nextBookingId + 1 }) := by
  unfold createBooking
  rcases hv : validateCreate db a now with e | b
  · exact Or.inl ⟨⟨e, rfl⟩, rfl⟩
  · rcases validateCreate_ok hv with ⟨ev, he, hact, hdate, hdup, hcap, hlim, hb⟩
    unfold commitCreate
    cases fault with
    | true => exact Or.inl ⟨⟨.serverError, rfl⟩, rfl⟩
    | false =>
      simp only [Bool.false_eq_true, if_false]
      rcases hs : saveNewBooking db b with _ | db1
      · exact Or.inl ⟨⟨.serverError, rfl⟩, rfl⟩
      · rcases saveNewBooking_some hs with ⟨_, _, hdb1⟩
        subst hdb1
        refine Or.inr ⟨ev, b, he, rfl, by rw [hb], by rw [hb], by rw [hb], by rw [hb],
          hcap, hdup, rfl, rfl⟩

theorem cancelBooking_cases (db : DB) (bid aid : Nat) (role : String)
    (reason : Option String) (now : Rat) (fault : Bool) :
    ((∃ e, (cancelBooking db bid aid role reason now fault).1 = .error e) ∧
      (cancelBooking db bid aid role reason now fault).2 = db) ∨
    (∃ b ev, db.findBooking bid = some b ∧ b.bookingStatus = .confirmed ∧
      db.findEvent b.event = some ev ∧
      (cancelBooking db bid aid role reason now fault).1 =
        .ok (calculateRefund b.totalAmount ev.date now "moderate") ∧
      (cancelBooking db bid aid role reason now fault).2 =
        { events := updateFirst db.events b.event
            (fun e => { e with availableSeats := e.availableSeats + (b.numberOfTickets : Int) }),
          bookings := updateFirst db.bookings bid
            (cancelUpdate now reason (calculateRefund b.totalAmount ev.date now "moderate")),
          nextBookingId := db.nextBookingId }) := by
  unfold cancelBooking
  rcases hb : db.findBooking bid with _ | b
  · exact Or.inl ⟨⟨.notFound, rfl⟩, rfl⟩
  · simp only []
    rcases he : db.findEvent b.event with _ | ev
    · simp only []
      split_ifs with h1 h2
      · exact Or.inl ⟨⟨.invalidStateTransition, rfl⟩, rfl⟩
      · exact Or.inl ⟨⟨.accessDenied, rfl⟩, rfl⟩
      · exact Or.inl ⟨⟨.serverError, rfl⟩, rfl⟩
    · simp only []
      split_ifs with h1 h2 h3 h4
      · exact Or.inl ⟨⟨.invalidStateTransition, rfl⟩, rfl⟩
      · exact Or.inl ⟨⟨.accessDenied, rfl⟩, rfl⟩
      · exact Or.inl ⟨⟨.cancellationWindowClosed, rfl⟩, rfl⟩
      · exact Or.inl ⟨⟨.serverError, rfl⟩, rfl⟩
      · exact Or.inr ⟨b, ev, rfl, not_ne_iff.1 h1, he, rfl, rfl⟩

theorem refundBooking_cases (db : DB) (bid : Nat) (amt : Rat) (reason : Option String) :
    ((∃ e, (refundBooking db bid amt reason).1 = .error e) ∧
      (refundBooking db bid amt reason).2 = db) ∨
    (∃ b, db.findBooking bid = some b ∧ b.bookingStatus = .cancelled ∧
      amt ≤ b.totalAmount ∧
      (refundBooking db bid amt reason).1 = .ok amt ∧
      (refundBooking db bid amt reason).2 =
        db.updateBooking bid (refundUpdate amt reason)) := by
  unfold refundBooking
  rcases hb : db.findBooking bid with _ | b
  · exact Or.inl ⟨⟨.notFound, rfl⟩, rfl⟩
  · simp only []
    split_ifs with h1 h2
    · exact Or.inl ⟨⟨.invalidStateTransition, rfl⟩, rfl⟩
    · exact Or.inl ⟨⟨.refundExceedsTotal, rfl⟩, rfl⟩
    · exact Or.inr ⟨b, rfl, not_ne_iff.1 h1, not_lt.1 h2, rfl, rfl⟩

/-! Preservation of the ledger invariant by each operation. -/

theorem ledgerInv_create (db : DB) (a : CreateArgs) (now : Rat) (fault : Bool)
    (h : LedgerInv db) : LedgerInv (createBooking db a now fault).2 := by
  rcases createBooking_cases db a now fault with ⟨_, hdb⟩ |
    ⟨ev, b, he, _, hbu, hbe, hbn, hbs, hcap, hdup, _, hdb⟩
  · rw [hdb]; exact h
  · rw [hdb]
    intro eid ev' hev'
    rw [DB.findEvent] at hev'
    by_cases heq : eid = a.eventId
    · rw [heq] at hev' ⊢
      rw [lookupFirst_updateFirst_self _ he] at hev'
      injection hev' with hev'
      subst hev'
      rcases h a.eventId ev he with ⟨hpos, hsum⟩
      have hw : confirmedTicketWeight a.eventId (db.nextBookingId, b) = a.numberOfTickets := by
        unfold confirmedTicketWeight
        rw [if_pos ⟨hbe, hbs⟩, hbn]
      have hct : confirmedTickets
          { events := updateFirst db.events a.eventId
              (fun e => { e with availableSeats := e.availableSeats - (a.numberOfTickets : Int) }),
            bookings := db.bookings ++ [(db.nextBookingId, b)],
            nextBookingId := db.nextBookingId + 1 } a.eventId =
          confirmedTickets db a.eventId + a.numberOfTickets := by
        simp [confirmedTickets, hw]
      rw [hct]
      dsimp only
      constructor
      · omega
      · push_cast
        linarith
    · rw [lookupFirst_updateFirst_ne _ heq] at hev'
      rcases h eid ev' hev' with ⟨hpos, hsum⟩
      have hw : confirmedTicketWeight eid (db.nextBookingId, b) = 0 := by
        unfold confirmedTicketWeight
        rw [if_neg]
        rintro ⟨hc, -⟩
        rw [hbe] at hc
        exact heq hc.symm
      have hct : confirmedTickets
          { events := updateFirst db.events a.eventId
              (fun e => { e with availableSeats := e.availableSeats - (a.numberOfTickets : Int) }),
            bookings := db.bookings ++ [(db.nextBookingId, b)],
            nextBookingId := db.nextBookingId + 1 } eid =
          confirmedTickets db eid := by
        simp [confirmedTickets, hw]
      rw [hct]
      exact ⟨hpos, hsum⟩

theorem ledgerInv_cancel (db : DB) (bid aid : Nat) (role : String)
    (reason : Option String) (now : Rat) (fault : Bool)
    (h : LedgerInv db) : LedgerInv (cancelBooking db bid aid role reason now fault).2 := by
  rcases cancelBooking_cases db bid aid role reason now fault with ⟨_, hdb⟩ |
    ⟨b, ev, hb, hst, he, _, hdb⟩
  · rw [hdb]; exact h
  · rw [hdb]
    intro eid ev' hev'
    rw [DB.findEvent] at hev'
    have hb' : lookupFirst db.bookings bid = some b := hb
    have hcu :
        (cancelUpdate now reason (calculateRefund b.totalAmount ev.date now "moderate") b).event
          = b.event := rfl
    by_cases heq : eid = b.event
    · rw [heq] at hev' ⊢
      rw [lookupFirst_updateFirst_self _ he] at hev'
      injection hev' with hev'
      subst hev'
      rcases h b.event ev he with ⟨hpos, hsum⟩
      have hsummap := sum_map_updateFirst (confirmedTicketWeight b.event)
        (cancelUpdate now reason (calculateRefund b.totalAmount ev.date now "moderate")) hb'
      have hwb : confirmedTicketWeight b.event (bid, b) = b.numberOfTickets := by
        unfold confirmedTicketWeight
        rw [if_pos ⟨rfl, hst⟩]
      have hwb' : confirmedTicketWeight b.event
          (bid, cancelUpdate now reason (calculateRefund b.totalAmount ev.date now "moderate") b)
          = 0 := by
        unfold confirmedTicketWeight
        rw [if_neg]
        rintro ⟨-, hc⟩
        exact absurd hc (by simp [cancelUpdate])
      rw [hwb, hwb'] at hsummap
      have hct : confirmedTickets
          { events := updateFirst db.events b.event
              (fun e => { e with availableSeats := e.availableSeats + (b.numberOfTickets : Int) }),
            bookings := updateFirst db.bookings bid
              (cancelUpdate now reason (calculateRefund b.totalAmount ev.date now "moderate")),
            nextBookingId := db.nextBookingId } b.event + b.numberOfTickets =
          confirmedTickets db b.event := by
        simpa [confirmedTickets] using hsummap
      dsimp only
      constructor
      · omega
      · omega
    · rw [lookupFirst_updateFirst_ne _ heq] at hev'
      rcases h eid ev' hev' with ⟨hpos, hsum⟩
      have hsummap := sum_map_updateFirst (confirmedTicketWeight eid)
        (cancelUpdate now reason (calculateRefund b.totalAmount ev.date now "moderate")) hb'
      have hwb : confirmedTicketWeight eid (bid, b) = 0 := by
        unfold confirmedTicketWeight
        rw [if_neg]
        rintro ⟨hc, -⟩
        exact heq hc.symm
      have hwb' : confirmedTicketWeight eid
          (bid, cancelUpdate now reason (calculateRefund b.totalAmount ev.date now "moderate") b)
          = 0 := by
        unfold confirmedTicketWeight
        rw [if_neg]
        rintro ⟨hc, -⟩
        rw [hcu] at hc
        exact heq hc.symm
      rw [hwb, hwb'] at hsummap
      have hct : confirmedTickets
          { events := updateFirst db.events b.event
              (fun e => { e with availableSeats := e.availableSeats + (b.numberOfTickets : Int) }),
            bookings := updateFirst db.bookings bid
              (cancelUpdate now reason (calculateRefund b.totalAmount ev.date now "moderate")),
            nextBookingId := db.nextBookingId } eid =
          confirmedTickets db eid := by
        simpa [confirmedTickets] using hsummap
      rw [hct]
      exact ⟨hpos, hsum⟩

theorem ledgerInv_refund (db : DB) (bid : Nat) (amt : Rat) (reason : Option String)
    (h : LedgerInv db) : LedgerInv (refundBooking db bid amt reason).2 := by
  rcases refundBooking_cases db bid amt reason with ⟨_, hdb⟩ | ⟨b, hb, hst, hle, _, hdb⟩
  · rw [hdb]; exact h
  · rw [hdb]
    intro eid ev' hev'
    have hb' : lookupFirst db.bookings bid = some b := hb
    rcases h eid ev' hev' with ⟨hpos, hsum⟩
    have hsummap := sum_map_updateFirst (confirmedTicketWeight eid)
      (refundUpdate amt reason) hb'
    have hwb : confirmedTicketWeight eid (bid, b) = 0 := by
      unfold confirmedTicketWeight
      rw [if_neg]
      rintro ⟨-, hc⟩
      rw [hst] at hc
      exact absurd hc (by simp)
    have hwb' : confirmedTicketWeight eid (bid, refundUpdate amt reason b) = 0 := by
      unfold confirmedTicketWeight
      rw [if_neg]
      rintro ⟨-, hc⟩
      exact absurd hc (by simp [refundUpdate])
    rw [hwb, hwb'] at hsummap
    have hct : confirmedTickets (db.updateBooking bid (refundUpdate amt reason)) eid =
        confirmedTickets db eid := by
      simpa [confirmedTickets, DB.updateBooking] using hsummap
    rw [hct]
    exact ⟨hpos, hsum⟩

theorem ledgerInv_applyOp (db : DB) (op : Op) (h : LedgerInv db) :
    LedgerInv (applyOp db op) := by
  cases op with
  | create a now fault => exact ledgerInv_create db a now fault h
  | cancel bid aid role reason now fault =>
    exact ledgerInv_cancel db bid aid role reason now fault h
  | refund bid amt reason => exact ledgerInv_refund db bid amt reason h

theorem inv_runOps {P : DB → Prop} (hstep : ∀ db op, P db → P (applyOp db op)) :
    ∀ (ops : List Op) (db : DB), P db → P (runOps db ops)
  | [], _, h => h
  | op :: ops, db, h => inv_runOps hstep ops (applyOp db op) (hstep db op h)

/-! Preservation of the active-uniqueness invariant by each operation. -/

theorem pairwiseNBA_updateFirst {l : List (Nat × Booking)} {k : Nat}
    {f : Booking → Booking}
    (hf : ∀ v, isActiveStatus ((f v).bookingStatus) = false)
    (h : l.Pairwise NotBothActive) :
    (updateFirst l k f).Pairwise NotBothActive := by
  induction l with
  | nil => simp [updateFirst]
  | cons p rest ih =>
    rw [List.pairwise_cons] at h
    rw [updateFirst]
    split
    · refine List.Pairwise.cons ?_ h.2
      intro q _ hc
      rw [hf p.2] at hc
      exact absurd hc.2.2.1 (by simp)
    · refine List.Pairwise.cons ?_ (ih h.2)
      intro q hq
      rcases mem_updateFirst hq with hq | ⟨v, _, rfl⟩
      · exact h.1 q hq
      · intro hc
        rw [hf v] at hc
        exact absurd hc.2.2.2 (by simp)

theorem activeUnique_create (db : DB) (a : CreateArgs) (now : Rat) (fault : Bool)
    (h : ActiveUnique db) : ActiveUnique (createBooking db a now fault).2 := by
  rcases createBooking_cases db a now fault with ⟨_, hdb⟩ |
    ⟨ev, b, he, _, hbu, hbe, hbn, hbs, hcap, hdup, _, hdb⟩
  · rw [hdb]; exact h
  · rw [hdb]
    unfold ActiveUnique at h ⊢
    dsimp only
    rw [List.pairwise_append]
    refine ⟨h, List.pairwise_singleton _ _, ?_⟩
    intro p hp q hq
    simp only [List.mem_singleton] at hq
    subst hq
    rintro ⟨hu, hev2, hact1, -⟩
    have : hasActiveBooking db a.userId a.eventId = true := by
      unfold hasActiveBooking
      rw [List.any_eq_true]
      refine ⟨p, hp, ?_⟩
      dsimp only at hu hev2
      rw [hbu] at hu
      rw [hbe] at hev2
      simp [hu, hev2, hact1]
    rw [this] at hdup
    exact Bool.noConfusion hdup

theorem activeUnique_cancel (db : DB) (bid aid : Nat) (role : String)
    (reason : Option String) (now : Rat) (fault : Bool)
    (h : ActiveUnique db) :
    ActiveUnique (cancelBooking db bid aid role reason now fault).2 := by
  rcases cancelBooking_cases db bid aid role reason now fault with ⟨_, hdb⟩ |
    ⟨b, ev, hb, hst, he, _, hdb⟩
  · rw [hdb]; exact h
  · rw [hdb]
    unfold ActiveUnique at h ⊢
    dsimp only
    exact pairwiseNBA_updateFirst (fun v => by simp [cancelUpdate, isActiveStatus]) h

theorem activeUnique_refund (db : DB) (bid : Nat) (amt : Rat) (reason : Option String)
    (h : ActiveUnique db) : ActiveUnique (refundBooking db bid amt reason).2 := by
  rcases refundBooking_cases db bid amt reason with ⟨_, hdb⟩ | ⟨b, hb, hst, hle, _, hdb⟩
  · rw [hdb]; exact h
  · rw [hdb]
    unfold ActiveUnique at h ⊢
    unfold DB.updateBooking
    dsimp only
    exact pairwiseNBA_updateFirst (fun v => by simp [refundUpdate, isActiveStatus]) h

theorem activeUnique_applyOp (db : DB) (op : Op) (h : ActiveUnique db) :
    ActiveUnique (applyOp db op) := by
  cases op with
  | create a now fault => exact activeUnique_create db a now fault h
  | cancel bid aid role reason now fault =>
    exact activeUnique_cancel db bid aid role reason now fault h
  | refund bid amt reason => exact activeUnique_refund db bid amt reason h

/-- C2: for every event, starting from a store whose events all satisfy
0 ≤ availableSeats ≤ totalSeats and which holds no bookings yet, after
every sequence of coordinator operations (CreateBooking, CancelBooking,
and also RefundBooking) every event still satisfies
0 ≤ availableSeats ≤ totalSeats. -/
theorem seatBoundsInvariant (db0 : DB) (ops : List Op)
    (hbk : db0.bookings = [])
    (hev : ∀ p ∈ db0.events, 0 ≤ p.2.availableSeats ∧ p.2.availableSeats ≤ p.2.totalSeats) :
    ∀ eid ev, (runOps db0 ops).findEvent eid = some ev →
      0 ≤ ev.availableSeats ∧ ev.availableSeats ≤ ev.totalSeats := by
  have h0 : LedgerInv db0 := by
    intro eid ev h
    rcases hev (eid, ev) (lookupFirst_mem h) with ⟨h1, h2⟩
    have hct : confirmedTickets db0 eid = 0 := by
      simp [confirmedTickets, hbk]
    rw [hct]
    exact ⟨h1, by push_cast; linarith⟩
  have hfin := inv_runOps ledgerInv_applyOp ops db0 h0
  intro eid ev h
  rcases hfin eid ev h with ⟨h1, h2⟩
  refine ⟨h1, ?_⟩
  have hnn : (0 : Int) ≤ (confirmedTickets (runOps db0 ops) eid : Int) := by positivity
  linarith

/-- Witness for `seatBoundsInvariant`: book 3 tickets and cancel the
booking again; the event ends with its original 10 of 10 seats, within
bounds. -/
theorem seatBoundsInvariant_witness :
    (runOps wDB wOps).findEvent 1 = some wEvent ∧
    0 ≤ wEvent.availableSeats ∧ wEvent.availableSeats ≤ wEvent.totalSeats := by
  have hmf : ¬ ("moderate" : String) = "flexible" := by decide
  have heval : (runOps wDB wOps).findEvent 1 = some wEvent := by
    norm_num [runOps, applyOp, createBooking, validateCreate, commitCreate, saveNewBooking,
      cancelBooking, DB.findEvent, DB.findBooking, DB.updateEvent, DB.updateBooking,
      lookupFirst, updateFirst, hasActiveBooking, isActiveStatus, attendeeCountOk,
      calculateRefund, hoursUntil, cancelUpdate, hmf, wDB, wEvent, wOps]
  exact ⟨heval,
    seatBoundsInvariant wDB wOps rfl (by norm_num [wDB, wEvent]) 1 wEvent heval⟩

/-- C3: in every state reachable from a store satisfying the
active-uniqueness invariant, each (userId, eventId) pair has at most one
booking in {pending, confirmed}; CreateBooking answers the 409
DuplicateActiveBooking error when an active booking already exists; and
the uniqueness is enforced at the storage level: the save itself rejects a
second active booking for the pair even without the application-level
pre-check, while the constraint is scoped to active statuses only — an
inactive document for the same pair inserts fine. -/
theorem activeBookingUniqueness :
    (∀ (db0 : DB) (ops : List Op), ActiveUnique db0 → ActiveUnique (runOps db0 ops)) ∧
    (∀ (db : DB) (a : CreateArgs) (now : Rat) (fault : Bool) (ev : Event),
      db.findEvent a.eventId = some ev → ev.isActive = true → now ≤ ev.date →
      hasActiveBooking db a.userId a.eventId = true →
      (createBooking db a now fault).1 = .error .duplicateActiveBooking ∧
      BErr.status .duplicateActiveBooking = 409) ∧
    (∀ (db : DB) (b : Booking), isActiveStatus b.bookingStatus = true →
      hasActiveBooking db b.user b.event = true → saveNewBooking db b = none) ∧
    (∀ (db : DB) (b : Booking), attendeeCountOk b = true →
      isActiveStatus b.bookingStatus = false →
      saveNewBooking db b = some { db with
        bookings := db.bookings ++ [(db.nextBookingId, b)],
        nextBookingId := db.nextBookingId + 1 }) := by
  refine ⟨?_, ?_, ?_, ?_⟩
  · intro db0 ops h
    exact inv_runOps activeUnique_applyOp ops db0 h
  · intro db a now fault ev he hact hdate hdup
    unfold createBooking validateCreate
    rw [he]
    simp only []
    rw [if_neg (by simp [hact, hdate]), if_pos hdup]
    exact ⟨rfl, rfl⟩
  · intro db b hact hdup
    unfold saveNewBooking
    have hcond : (isActiveStatus b.bookingStatus && hasActiveBooking db b.user b.event) = true := by
      simp [hact, hdup]
    rw [hcond]
    by_cases h1 : attendeeCountOk b = true
    · rw [if_neg (by simp [h1]), if_pos rfl]
    · rw [if_pos h1]
  · intro db b hatt hinact
    unfold saveNewBooking
    rw [if_neg (by simp [hatt]), if_neg (by simp [hinact])]

/-- Witness for `activeBookingUniqueness`: a sequence keeps uniqueness; a
second booking of user 7 on event 1 is answered 409; the raw save of an
active duplicate is rejected by the index; a cancelled duplicate inserts. -/
theorem activeBookingUniqueness_witness :
    ActiveUnique (runOps wDB wOps) ∧
    (createBooking w2DB ⟨7, 1, 1, none⟩ 0 false).1 = .error .duplicateActiveBooking ∧
    saveNewBooking w2DB wBooking = none ∧
    saveNewBooking w2DB wCancelledBooking = some { w2DB with
      bookings := w2DB.bookings ++ [(1, wCancelledBooking)],
      nextBookingId := 2 } := by
  refine ⟨activeBookingUniqueness.1 wDB wOps (by decide), ?_, ?_, ?_⟩
  · exact (activeBookingUniqueness.2.1 w2DB ⟨7, 1, 1, none⟩ 0 false wEvent rfl rfl
      (by norm_num [wEvent]) (by decide)).1
  · exact activeBookingUniqueness.2.2.1 w2DB wBooking (by decide) (by decide)
  · exact activeBookingUniqueness.2.2.2 w2DB wCancelledBooking (by decide) (by decide)

/-- C4: the booking insert and the seat decrement of CreateBooking form
one atomic unit: on success the new booking is appended to the store and
the event's availableSeats is decremented by numberOfTickets (other events
untouched); on any failure, the store is exactly the original one. -/
theorem createBookingAtomicity (db : DB) (a : CreateArgs) (now : Rat) (fault : Bool) :
    (∀ e, (createBooking db a now fault).1 = .error e →
      (createBooking db a now fault).2 = db) ∧
    (∀ bid, (createBooking db a now fault).1 = .ok bid →
      ∃ b ev, db.findEvent a.eventId = some ev ∧
        (createBooking db a now fault).2.bookings = db.bookings ++ [(bid, b)] ∧
        (createBooking db a now fault).2.findEvent a.eventId =
          some { ev with availableSeats := ev.availableSeats - (a.numberOfTickets : Int) } ∧
        ∀ eid, eid ≠ a.eventId →
          (createBooking db a now fault).2.findEvent eid = db.findEvent eid) := by
  rcases createBooking_cases db a now fault with ⟨⟨e0, he0⟩, hdb⟩ |
    ⟨ev, b, he, _, _, _, _, _, _, _, hres, hdb⟩
  · constructor
    · intro e _
      exact hdb
    · intro bid hok
      rw [he0] at hok
      exact Except.noConfusion hok
  · constructor
    · intro e herr
      rw [hres] at herr
      exact Except.noConfusion herr
    · intro bid hok
      rw [hres] at hok
      injection hok with hok
      subst hok
      have he' : lookupFirst db.events a.eventId = some ev := he
      refine ⟨b, ev, he, by rw [hdb], ?_, ?_⟩
      · rw [hdb]
        exact lookupFirst_updateFirst_self _ he'
      · intro eid hne
        rw [hdb]
        exact lookupFirst_updateFirst_ne _ hne

/-- Witness for `createBookingAtomicity`: a 100-ticket request on a
10-seat event fails and the store is untouched. -/
theorem createBookingAtomicity_witness :
    (createBooking wDB ⟨7, 1, 100, none⟩ 0 false).1 = .error .insufficientCapacity ∧
    (createBooking wDB ⟨7, 1, 100, none⟩ 0 false).2 = wDB := by
  have herr : (createBooking wDB ⟨7, 1, 100, none⟩ 0 false).1 = .error .insufficientCapacity := by
    norm_num [createBooking, validateCreate, DB.findEvent, lookupFirst, hasActiveBooking,
      wDB, wEvent]
  exact ⟨herr, (createBookingAtomicity wDB ⟨7, 1, 100, none⟩ 0 false).1 _ herr⟩

/-- C5 counterexample: an empty-but-provided attendee list whose length (0)
differs from numberOfTickets (2) is accepted — the booking is created —
because the pre-save hook only fires on non-empty lists; and a genuine
mismatch (2 names for 3 tickets) aborts the transaction with the generic
500 server error, not a 400 AttendeeMismatch response, leaving the store
unchanged. -/
theorem attendeeMismatchCounterexample :
    (createBooking wDB ⟨7, 1, 2, some []⟩ 0 false).1 = .ok 0 ∧
    (createBooking wDB ⟨7, 1, 3, some ["Ada", "Bob"]⟩ 0 false).1 = .error .serverError ∧
    BErr.status .serverError = 500 ∧
    (createBooking wDB ⟨7, 1, 3, some ["Ada", "Bob"]⟩ 0 false).2 = wDB := by
  refine ⟨?_, ?_, rfl, ?_⟩ <;>
    norm_num [createBooking, validateCreate, commitCreate, saveNewBooking,
      DB.findEvent, DB.updateEvent, lookupFirst, updateFirst, hasActiveBooking,
      isActiveStatus, attendeeCountOk, wDB, wEvent]

/-- C5 amended: whenever attendeeInfo is provided non-empty with a length
different from numberOfTickets, CreateBooking never succeeds and leaves the
store unchanged; when the validation phase itself passes, the failure is
the generic 500 server error from the aborted transaction (the attendee
check lives in the schema's pre-save hook, not in the controller). -/
theorem attendeeMismatchAmended (db : DB) (a : CreateArgs) (now : Rat) (fault : Bool)
    (l : List String) (hl : a.attendeeInfo = some l) (hne : l ≠ [])
    (hlen : l.length ≠ a.numberOfTickets) :
    (createBooking db a now fault).2 = db ∧
    (∀ bid, (createBooking db a now fault).1 ≠ .ok bid) ∧
    (∀ b, validateCreate db a now = .ok b →
      (createBooking db a now fault).1 = .error .serverError) := by
  unfold createBooking
  rcases hv : validateCreate db a now with e | b
  · exact ⟨rfl, fun bid h => Except.noConfusion h, fun b hb => Except.noConfusion hb⟩
  · rcases validateCreate_ok hv with ⟨ev, he, _, _, _, _, _, hbdef⟩
    have hatt : attendeeCountOk b = false := by
      rw [hbdef]
      unfold attendeeCountOk
      dsimp only
      rw [hl]
      simp [List.length_eq_zero, hne, hlen]
    have hsave : saveNewBooking db b = none := by
      unfold saveNewBooking
      rw [if_pos (by simp [hatt])]
    simp only []
    unfold commitCreate
    cases fault
    · simp only [Bool.false_eq_true, if_false]
      rw [hsave]
      exact ⟨rfl, fun bid h => Except.noConfusion h, fun b' _ => rfl⟩
    · rw [if_pos rfl]
      exact ⟨rfl, fun bid h => Except.noConfusion h, fun b' _ => rfl⟩

/-- Witness for `attendeeMismatchAmended` on the concrete 3-tickets /
2-attendees request. -/
theorem attendeeMismatchAmended_witness :
    (createBooking wDB ⟨7, 1, 3, some ["Ada", "Bob"]⟩ 0 false).2 = wDB ∧
    (createBooking wDB ⟨7, 1, 3, some ["Ada", "Bob"]⟩ 0 false).1 = .error .serverError := by
  have h := attendeeMismatchAmended wDB ⟨7, 1, 3, some ["Ada", "Bob"]⟩ 0 false
    ["Ada", "Bob"] rfl (by simp) (by simp)
  refine ⟨h.1, h.2.2 wMismatchBooking ?_⟩
  norm_num [validateCreate, DB.findEvent, lookupFirst, hasActiveBooking,
    wDB, wEvent, wMismatchBooking]

/-- Helper: a booking whose status is not `confirmed` makes CancelBooking
answer InvalidStateTransition and leave the store unchanged. -/
theorem cancelBooking_notConfirmed {db : DB} {bid : Nat} {b : Booking}
    (hb : db.findBooking bid = some b) (hst : b.bookingStatus ≠ .confirmed)
    (aid : Nat) (role : String) (reason : Option String) (now : Rat) (fault : Bool) :
    cancelBooking db bid aid role reason now fault = (.error .invalidStateTransition, db) := by
  unfold cancelBooking
  rw [hb]
  simp only []
  rw [if_pos hst]

/-- Helper: if a CancelBooking call succeeds, cancelling the same booking a
second time (whoever the actor) fails with InvalidStateTransition and
changes nothing, and the event's availableSeats was incremented by the
booking's ticket count exactly once — by the first call. -/
theorem doubleCancelSecondFails (db : DB) (bid a1 : Nat) (r1 : String)
    (rs1 : Option String) (t1 : Rat) (f1 : Bool) (a2 : Nat) (r2 : String)
    (rs2 : Option String) (t2 : Rat) (f2 : Bool) (amt : Rat)
    (h : (cancelBooking db bid a1 r1 rs1 t1 f1).1 = .ok amt) :
    (cancelBooking (cancelBooking db bid a1 r1 rs1 t1 f1).2 bid a2 r2 rs2 t2 f2).1 =
      .error .invalidStateTransition ∧
    (cancelBooking (cancelBooking db bid a1 r1 rs1 t1 f1).2 bid a2 r2 rs2 t2 f2).2 =
      (cancelBooking db bid a1 r1 rs1 t1 f1).2 ∧
    ∃ b ev, db.findBooking bid = some b ∧ db.findEvent b.event = some ev ∧
      (cancelBooking db bid a1 r1 rs1 t1 f1).2.findEvent b.event =
        some { ev with availableSeats := ev.availableSeats + (b.numberOfTickets : Int) } := by
  rcases cancelBooking_cases db bid a1 r1 rs1 t1 f1 with ⟨⟨e, he0⟩, hdb⟩ |
    ⟨b, ev, hb, hst, he, hres, hdb⟩
  · rw [he0] at h
    exact Except.noConfusion h
  · have hb' : lookupFirst db.bookings bid = some b := hb
    have he' : lookupFirst db.events b.event = some ev := he
    have hfb : (cancelBooking db bid a1 r1 rs1 t1 f1).2.findBooking bid =
        some (cancelUpdate t1 rs1 (calculateRefund b.totalAmount ev.date t1 "moderate") b) := by
      rw [hdb]
      exact lookupFirst_updateFirst_self _ hb'
    have h2 := cancelBooking_notConfirmed hfb (by simp [cancelUpdate]) a2 r2 rs2 t2 f2
    refine ⟨by rw [h2], by rw [h2], ⟨b, ev, hb, he, ?_⟩⟩
    rw [hdb]
    exact lookupFirst_updateFirst_self _ he'

/-- C6: CancelBooking on a stored booking whose status is not confirmed
fails with InvalidStateTransition and changes nothing; consequently, after
a successful CancelBooking, cancelling the same booking again fails with
InvalidStateTransition and changes nothing, and the event's availableSeats
was incremented by the booking's ticket count exactly once — by the first
call. -/
theorem cancelStateTransitionDiscipline :
    (∀ (db : DB) (bid aid : Nat) (role : String) (reason : Option String)
       (now : Rat) (fault : Bool) (b : Booking),
      db.findBooking bid = some b → b.bookingStatus ≠ .confirmed →
      cancelBooking db bid aid role reason now fault =
        (.error .invalidStateTransition, db)) ∧
    (∀ (db : DB) (bid a1 : Nat) (r1 : String) (rs1 : Option String) (t1 : Rat)
       (f1 : Bool) (a2 : Nat) (r2 : String) (rs2 : Option String) (t2 : Rat)
       (f2 : Bool) (amt : Rat),
      (cancelBooking db bid a1 r1 rs1 t1 f1).1 = .ok amt →
      (cancelBooking (cancelBooking db bid a1 r1 rs1 t1 f1).2 bid a2 r2 rs2 t2 f2).1 =
        .error .invalidStateTransition ∧
      (cancelBooking (cancelBooking db bid a1 r1 rs1 t1 f1).2 bid a2 r2 rs2 t2 f2).2 =
        (cancelBooking db bid a1 r1 rs1 t1 f1).2 ∧
      ∃ b ev, db.findBooking bid = some b ∧ db.findEvent b.event = some ev ∧
        (cancelBooking db bid a1 r1 rs1 t1 f1).2.findEvent b.event =
          some { ev with availableSeats := ev.availableSeats + (b.numberOfTickets : Int) }) := by
  constructor
  · intro db bid aid role reason now fault b hb hst
    exact cancelBooking_notConfirmed hb hst aid role reason now fault
  · intro db bid a1 r1 rs1 t1 f1 a2 r2 rs2 t2 f2 amt h
    exact doubleCancelSecondFails db bid a1 r1 rs1 t1 f1 a2 r2 rs2 t2 f2 amt h

/-- Witness for `cancelStateTransitionDiscipline`: cancel the stored
booking once (refund 60), then the second cancel fails
InvalidStateTransition. -/
theorem cancelStateTransitionDiscipline_witness :
    (cancelBooking (cancelBooking w2DB 0 7 "user" none (1000 * 60 * 60) false).2
      0 7 "user" none (1000 * 60 * 60) false).1 = .error .invalidStateTransition := by
  have hmf : ¬ ("moderate" : String) = "flexible" := by decide
  have hua : ¬ ("user" : String) = "admin" := by decide
  have h1 : (cancelBooking w2DB 0 7 "user" none (1000 * 60 * 60) false).1 = .ok 60 := by
    norm_num [cancelBooking, DB.findBooking, DB.findEvent, lookupFirst,
      calculateRefund, hoursUntil, w2DB, wBooking, wEvent, hmf, hua]
  exact (cancelStateTransitionDiscipline.2 w2DB 0 7 "user" none (1000 * 60 * 60) false
    7 "user" none (1000 * 60 * 60) false 60 h1).1

/-- C7 counterexample: a confirmed booking, more than 24 hours before the
event, but the actor (user 9) is neither the owner (user 7) nor an admin:
CancelBooking answers the 403 access error and changes nothing, while the
claim as stated promises a successful cancellation for any actor when at
least 24 hours remain. -/
theorem cancelOwnershipCounterexample :
    (cancelBooking w2DB 0 9 "user" none 0 false).1 = .error .accessDenied ∧
    (cancelBooking w2DB 0 9 "user" none 0 false).2 = w2DB ∧
    (w2DB.findBooking 0).map Booking.bookingStatus = some BookingStatus.confirmed ∧
    BErr.status .accessDenied = 403 ∧
    24 ≤ hoursUntil 0 wEvent.date := by
  have hua : ¬ ("user" : String) = "admin" := by decide
  refine ⟨?_, ?_, rfl, rfl, by norm_num [hoursUntil, wEvent]⟩ <;>
    norm_num [cancelBooking, DB.findBooking, lookupFirst, w2DB, wBooking, hua]

/-- C7 amended: for a confirmed booking, when the actor is an admin, or is
the booking's owner with at least 24 hours before the event, CancelBooking
succeeds: it returns the "moderate"-tier refund of totalAmount and stores
the booking with status cancelled, cancellationDate and cancellationReason
set, refundAmount set to that refund, paymentStatus refunded when the
refund is positive and paid otherwise, and it adds numberOfTickets back to
the event's availableSeats; a non-admin owner with fewer than 24 hours
remaining fails with CancellationWindowClosed and changes nothing. -/
theorem cancelBookingBehavior (db : DB) (bid aid : Nat) (role : String)
    (reason : Option String) (now : Rat) (b : Booking) (ev : Event)
    (hb : db.findBooking bid = some b) (hst : b.bookingStatus = .confirmed)
    (he : db.findEvent b.event = some ev) :
    ((role = "admin" ∨ (b.user = aid ∧ 24 ≤ hoursUntil now ev.date)) →
      (cancelBooking db bid aid role reason now false).1 =
        .ok (calculateRefund b.totalAmount ev.date now "moderate") ∧
      (cancelBooking db bid aid role reason now false).2.findBooking bid =
        some { b with
          bookingStatus := .cancelled
          cancellationDate := some now
          cancellationReason := some (reason.getD "Cancelled by user")
          refundAmount := some (calculateRefund b.totalAmount ev.date now "moderate")
          paymentStatus :=
            if calculateRefund b.totalAmount ev.date now "moderate" > 0
            then PaymentStatus.refunded else PaymentStatus.paid } ∧
      (cancelBooking db bid aid role reason now false).2.findEvent b.event =
        some { ev with availableSeats := ev.availableSeats + (b.numberOfTickets : Int) }) ∧
    ((role ≠ "admin" ∧ b.user = aid ∧ hoursUntil now ev.date < 24) →
      (cancelBooking db bid aid role reason now false).1 = .error .cancellationWindowClosed ∧
      (cancelBooking db bid aid role reason now false).2 = db) := by
  have hb' : lookupFirst db.bookings bid = some b := hb
  have he' : lookupFirst db.events b.event = some ev := he
  constructor
  · intro hcase
    have hred : cancelBooking db bid aid role reason now false =
        (.ok (calculateRefund b.totalAmount ev.date now "moderate"),
         (db.updateBooking bid
            (cancelUpdate now reason (calculateRefund b.totalAmount ev.date now "moderate"))).updateEvent
            b.event (fun e => { e with availableSeats := e.availableSeats + (b.numberOfTickets : Int) })) := by
      unfold cancelBooking
      rw [hb]
      simp only []
      rw [if_neg (by simp [hst])]
      rcases hcase with hadm | ⟨hown, h24⟩
      · rw [if_neg (by simp [hadm])]
        rw [he]
        simp only []
        rw [if_neg (by simp [hadm]), if_neg (by simp)]
      · rw [if_neg (by simp [hown])]
        rw [he]
        simp only []
        rw [if_neg (fun hc => absurd hc.1 (not_lt.2 h24)), if_neg (by simp)]
    refine ⟨by rw [hred], ?_, ?_⟩
    · rw [hred]
      exact lookupFirst_updateFirst_self _ hb'
    · rw [hred]
      exact lookupFirst_updateFirst_self _ he'
  · rintro ⟨hnadm, hown, h24⟩
    have hred : cancelBooking db bid aid role reason now false =
        (.error .cancellationWindowClosed, db) := by
      unfold cancelBooking
      rw [hb]
      simp only []
      rw [if_neg (by simp [hst]), if_neg (by simp [hown])]
      rw [he]
      simp only []
      rw [if_pos ⟨h24, hnadm⟩]
    exact ⟨by rw [hred], by rw [hred]⟩

/-- Witness for `cancelBookingBehavior`: the owner cancels 959 hours ahead
and gets the full 60 refund; the seats go back to the ledger. -/
theorem cancelBookingBehavior_witness :
    (cancelBooking w2DB 0 7 "user" none (1000 * 60 * 60) false).1 = .ok 60 ∧
    (cancelBooking w2DB 0 7 "user" none (1000 * 60 * 60) false).2.findEvent wBooking.event =
      some { wEvent with
        availableSeats := wEvent.availableSeats + (wBooking.numberOfTickets : Int) } := by
  have h := (cancelBookingBehavior w2DB 0 7 "user" none (1000 * 60 * 60) wBooking wEvent
    rfl rfl rfl).1 (Or.inr ⟨rfl, by norm_num [hoursUntil, wEvent]⟩)
  have hmf : ¬ ("moderate" : String) = "flexible" := by decide
  have hamt : calculateRefund wBooking.totalAmount wEvent.date (1000 * 60 * 60) "moderate"
      = 60 := by
    norm_num [calculateRefund, hoursUntil, wBooking, wEvent, hmf]
  exact ⟨by rw [h.1, hamt], h.2.2⟩

/-- C8: RefundBooking on a stored booking fails InvalidStateTransition
unless the status is cancelled, fails RefundExceedsTotal when the requested
amount exceeds totalAmount (store unchanged in both cases); on success it
returns the amount, stores the booking with status refunded, the final
refundAmount, paymentStatus refunded when the amount is positive and paid
otherwise, the reason defaulting to the old cancellationReason — and the
events side of the store (every Event field) is untouched. -/
theorem refundBookingBehavior (db : DB) (bid : Nat) (amt : Rat) (reason : Option String)
    (b : Booking) (hb : db.findBooking bid = some b) :
    (b.bookingStatus ≠ .cancelled →
      refundBooking db bid amt reason = (.error .invalidStateTransition, db)) ∧
    (b.bookingStatus = .cancelled → b.totalAmount < amt →
      refundBooking db bid amt reason = (.error .refundExceedsTotal, db)) ∧
    (b.bookingStatus = .cancelled → amt ≤ b.totalAmount →
      (refundBooking db bid amt reason).1 = .ok amt ∧
      (refundBooking db bid amt reason).2.events = db.events ∧
      (refundBooking db bid amt reason).2.nextBookingId = db.nextBookingId ∧
      (refundBooking db bid amt reason).2.findBooking bid =
        some { b with
          refundAmount := some amt
          paymentStatus := if amt > 0 then PaymentStatus.refunded else PaymentStatus.paid
          bookingStatus := .refunded
          cancellationReason :=
            match reason with
            | some r => some r
            | none => b.cancellationReason }) := by
  have hb' : lookupFirst db.bookings bid = some b := hb
  refine ⟨?_, ?_, ?_⟩
  · intro hst
    unfold refundBooking
    rw [hb]
    simp only []
    rw [if_pos hst]
  · intro hst hgt
    unfold refundBooking
    rw [hb]
    simp only []
    rw [if_neg (by simp [hst]), if_pos hgt]
  · intro hst hle
    have hred : refundBooking db bid amt reason =
        (.ok amt, db.updateBooking bid (refundUpdate amt reason)) := by
      unfold refundBooking
      rw [hb]
      simp only []
      rw [if_neg (by simp [hst]), if_neg (not_lt.2 hle)]
    refine ⟨by rw [hred], by rw [hred]; rfl, by rw [hred]; rfl, ?_⟩
    rw [hred]
    exact lookupFirst_updateFirst_self _ hb'

/-- Witness for `refundBookingBehavior`: a 50 refund of the cancelled
60 booking succeeds and the events are untouched. -/
theorem refundBookingBehavior_witness :
    (refundBooking w3DB 0 50 none).1 = .ok 50 ∧
    (refundBooking w3DB 0 50 none).2.events = w3DB.events := by
  have h := (refundBookingBehavior w3DB 0 50 none wCancelledBooking rfl).2.2 rfl
    (by norm_num [wCancelledBooking, wBooking])
  exact ⟨h.1, h.2.1⟩

/-- C9: an interleaving the event-loop scheduler allows — both handlers
read and validate against the store before either commits — makes two
concurrent single-ticket CreateBooking calls on an event with one
remaining seat BOTH succeed, driving availableSeats to -1: the capacity
check happens outside the transactional write and the `$inc` decrement is
unguarded, so the code does not deliver the claimed
one-success/one-InsufficientCapacity outcome. -/
theorem concurrentOversellSchedule :
    (interleavedPair c9DB ⟨7, 1, 1, none⟩ ⟨8, 1, 1, none⟩ 0).1 = .ok 0 ∧
    (interleavedPair c9DB ⟨7, 1, 1, none⟩ ⟨8, 1, 1, none⟩ 0).2.1 = .ok 1 ∧
    ((interleavedPair c9DB ⟨7, 1, 1, none⟩ ⟨8, 1, 1, none⟩ 0).2.2.findEvent 1).map
      Event.availableSeats = some (-1) ∧
    c9Event.availableSeats = 1 := by
  refine ⟨?_, ?_, ?_, rfl⟩ <;>
    norm_num [interleavedPair, validateCreate, commitCreate, saveNewBooking,
      DB.findEvent, DB.updateEvent, lookupFirst, updateFirst, hasActiveBooking,
      isActiveStatus, attendeeCountOk, c9DB, c9Event]

/-- C1: the refund policy engine returns the full amount / half the amount /
nothing at the tier-specific thresholds (flexible 24h/2h, moderate 48h/24h,
strict 168h/72h), returns 0 for `no_refund` and for unknown tiers, returns 0
whenever the event is already past, and in particular
refund(100, 80h, "strict") = 50. -/
theorem refundPolicyTable (a eventDate now : Rat) :
    (calculateRefund a eventDate now "flexible" =
      if hoursUntil now eventDate ≥ 24 then a
      else if hoursUntil now eventDate ≥ 2 then a * (1/2) else 0) ∧
    (calculateRefund a eventDate now "moderate" =
      if hoursUntil now eventDate ≥ 48 then a
      else if hoursUntil now eventDate ≥ 24 then a * (1/2) else 0) ∧
    (calculateRefund a eventDate now "strict" =
      if hoursUntil now eventDate ≥ 168 then a
      else if hoursUntil now eventDate ≥ 72 then a * (1/2) else 0) ∧
    (calculateRefund a eventDate now "no_refund" = 0) ∧
    (∀ p : String, p ≠ "flexible" → p ≠ "moderate" → p ≠ "strict" →
      calculateRefund a eventDate now p = 0) ∧
    (hoursUntil now eventDate < 0 →
      ∀ p : String, calculateRefund a eventDate now p = 0) ∧
    calculateRefund 100 (80 * (1000 * 60 * 60)) 0 "strict" = 50 := by
  have hmf : ("moderate" : String) ≠ "flexible" := by decide
  have hsf : ("strict" : String) ≠ "flexible" := by decide
  have hsm : ("strict" : String) ≠ "moderate" := by decide
  have hnf : ("no_refund" : String) ≠ "flexible" := by decide
  have hnm : ("no_refund" : String) ≠ "moderate" := by decide
  have hns : ("no_refund" : String) ≠ "strict" := by decide
  refine ⟨?_, ?_, ?_, ?_, ?_, ?_, by norm_num [calculateRefund, hoursUntil, hsf, hsm]⟩
  · simp [calculateRefund]
  · simp [calculateRefund, hmf]
  · simp [calculateRefund, hsf, hsm]
  · simp [calculateRefund, hnf, hnm, hns]
  · intro p h1 h2 h3
    simp [calculateRefund, h1, h2, h3]
  · intro hneg p
    unfold calculateRefund
    split_ifs <;> first | rfl | (exfalso; linarith)

/-- Witness for `refundPolicyTable` at a concrete negative-hours input and a
concrete unknown tier. -/
theorem refundPolicyTable_witness :
    calculateRefund 100 0 (5 * (1000 * 60 * 60)) "bogus" = 0 ∧
    calculateRefund 100 0 (5 * (1000 * 60 * 60)) "flexible" = 0 := by
  have h := refundPolicyTable 100 0 (5 * (1000 * 60 * 60))
  refine ⟨h.2.2.2.2.1 "bogus" (by decide) (by decide) (by decide), ?_⟩
  exact h.2.2.2.2.2.1 (by norm_num [hoursUntil]) "flexible"

/-- C10 counterexample: at 80 hours before the event the Booking model's
instance method refunds 75% of the amount while the policy engine's
"strict" tier refunds 50%, so the two functions differ. -/
theorem bookingMethodDiffersFromStrict :
    bookingCalculateRefund 100 (some (80 * (1000 * 60 * 60))) 0 ≠
      calculateRefund 100 (80 * (1000 * 60 * 60)) 0 "strict" := by
  have hsf : ("strict" : String) ≠ "flexible" := by decide
  have hsm : ("strict" : String) ≠ "moderate" := by decide
  norm_num [bookingCalculateRefund, calculateRefund, hoursUntil, hsf, hsm]

/-- C10 amended: the Booking model's instance method agrees with the policy
engine's "strict" tier when at least 168 hours or fewer than 24 hours remain;
between 72 and 168 hours the method refunds 75% where "strict" refunds 50%,
and between 24 and 72 hours the method refunds 50% where "strict" refunds
nothing. -/
theorem bookingMethodVsStrict (a eventDate now : Rat) :
    (hoursUntil now eventDate ≥ 168 ∨ hoursUntil now eventDate < 24 →
      bookingCalculateRefund a (some eventDate) now =
        calculateRefund a eventDate now "strict") ∧
    (72 ≤ hoursUntil now eventDate → hoursUntil now eventDate < 168 →
      bookingCalculateRefund a (some eventDate) now = a * (3/4) ∧
        calculateRefund a eventDate now "strict" = a * (1/2)) ∧
    (24 ≤ hoursUntil now eventDate → hoursUntil now eventDate < 72 →
      bookingCalculateRefund a (some eventDate) now = a * (1/2) ∧
        calculateRefund a eventDate now "strict" = 0) := by
  have hsf : ("strict" : String) ≠ "flexible" := by decide
  have hsm : ("strict" : String) ≠ "moderate" := by decide
  refine ⟨?_, ?_, ?_⟩
  · rintro (h | h)
    · simp [bookingCalculateRefund, calculateRefund, hsf, hsm, h]
    · have h72 : ¬ hoursUntil now eventDate ≥ 72 := by linarith
      have h168 : ¬ hoursUntil now eventDate ≥ 168 := by linarith
      have h24 : ¬ hoursUntil now eventDate ≥ 24 := by linarith
      simp [bookingCalculateRefund, calculateRefund, hsf, hsm, h72, h168, h24]
  · intro h1 h2
    have h168 : ¬ hoursUntil now eventDate ≥ 168 := by linarith
    simp [bookingCalculateRefund, calculateRefund, hsf, hsm, h168, h1]
  · intro h1 h2
    have h168 : ¬ hoursUntil now eventDate ≥ 168 := by linarith
    have h72 : ¬ hoursUntil now eventDate ≥ 72 := by linarith
    simp [bookingCalculateRefund, calculateRefund, hsf, hsm, h168, h72, h1]

/-- Witness for `bookingMethodVsStrict` at 80 hours before the event. -/
theorem bookingMethodVsStrict_witness :
    bookingCalculateRefund 100 (some (80 * (1000 * 60 * 60))) 0 = 75 ∧
    calculateRefund 100 (80 * (1000 * 60 * 60)) 0 "strict" = 50 := by
  have h := (bookingMethodVsStrict 100 (80 * (1000 * 60 * 60)) 0).2.1
    (by norm_num [hoursUntil]) (by norm_num [hoursUntil])
  refine ⟨by rw [h.1]; norm_num, by rw [h.2]; norm_num⟩

end EventBooking
